import Mathlib

/-!
Verification of the logon-pending session state of a FIX session engine
(`logon_state.go`).  The state machine's handler functions are embedded
shallowly: side effects (logging, outbound logout messages, sequence-store
mutations, application notifications) are recorded as an ordered trace of
`Effect` values, and the external collaborators of the state (logon
validation, the too-high recovery procedure, send and store outcomes) are
oracle fields of the `Session` record.
-/

namespace QuickFix

/-- Errors produced by field extraction, parsing, the store and the transport. -/
inductive FixError where
  | fieldMissing (tag : Nat)
  | parseError (s : String)
  | storeError (s : String)
  | sendError (s : String)
  deriving DecidableEq, Repr

/-- FIX tag 35, the message-type header field. -/
def tagMsgType : Nat := 35

/-- FIX tag 58, the free-text body field. -/
def tagText : Nat := 58

/-- Message-type constant for Logon. -/
def msgTypeLogon : String := "A"

/-- Message-type constant for Logout. -/
def msgTypeLogout : String := "5"

/-- Modelled from the spec: a header or body section of a parsed message,
a mapping from field tag to raw value (`Message` is an external collaborator;
only its typed field lookup is needed here). -/
structure FieldMap where
  fields : List (Nat × String)
  deriving DecidableEq, Repr

/-- Modelled from the spec: `GetBytes(tag)` on a message section — returns the
raw value or a typed error when the tag is absent. -/
def FieldMap.GetBytes (m : FieldMap) (tag : Nat) : Except FixError String :=
  match m.fields.lookup tag with
  | some v => Except.ok v
  | none => Except.error (FixError.fieldMissing tag)

/-- Modelled from the spec: `GetString(tag)` on a message section — same lookup,
string-typed result. -/
def FieldMap.GetString (m : FieldMap) (tag : Nat) : Except FixError String :=
  match m.fields.lookup tag with
  | some v => Except.ok v
  | none => Except.error (FixError.fieldMissing tag)

/-- Modelled from the spec: an immutable parsed protocol message with a header
section and a body section; `display` is the rendering used when the message is
interpolated into a log line. -/
structure Message where
  Header : FieldMap
  Body : FieldMap
  display : String
  deriving DecidableEq, Repr

/-- Classification of a failed logon validation (`session.handleLogon` error),
mirroring the typed errors `RejectLogon`, `targetTooLow`, `targetTooHigh`
switched on in `logonState.FixMsgIn`; `other` covers the default branch. -/
inductive LogonError where
  | rejectLogon (text : String)
  | targetTooLow (text : String)
  | targetTooHigh (text : String)
  | other (e : FixError)
  deriving DecidableEq, Repr

/-- The session-state variants relevant to the logon-pending state's
transitions. -/
inductive SessionState where
  | latentState
  | logonState
  | inSession
  | resendState
  | logoutState
  deriving DecidableEq, Repr

/-- One observable side effect performed through the session: a logged event,
a logged error, an attempted outbound logout carrying its reason, a
sequence-store mutation, or the in-session application notification. -/
inductive Effect where
  | onEvent (s : String)
  | logError (e : FixError)
  | sendLogout (reason : String)
  | incrNextTargetMsgSeqNum
  | forceNextSenderMsgSeqNum (n : Int)
  | inSessionNotify (id : Nat)
  deriving DecidableEq, Repr

/-- Modelled from the spec: the session record passed into the state handlers.
The fields beyond the configuration flag and session id are oracles fixing the
outcomes of the external collaborators invoked by `logonState.FixMsgIn`:
`handleLogonResult` is the classification returned by the session's
logon-validation procedure (`none` = accepted), `doTargetTooHighResult` the
outcome of the too-high recovery procedure, and `sendErr` / `incrErr` /
`forceErr` the error results of `dropAndSendInReplyTo`,
`store.IncrNextTargetMsgSeqNum` and `forceNextSenderMsgSeqNum`. -/
structure Session where
  LogonForceSenderMsgSeqNum : Bool
  handleLogonResult : Option LogonError
  doTargetTooHighResult : Except String SessionState
  sendErr : Option FixError
  incrErr : Option FixError
  forceErr : Option FixError
  sessionID : Nat

/-- Modelled from the spec: the shared state-error handler — logs the error and
transitions the session to the latent state; never propagates the error. -/
def handleStateError (e : FixError) : SessionState × List Effect :=
  (SessionState.latentState, [Effect.logError e])

/-- Prepend already-performed effects to a handler outcome. -/
def withEffects (pre : List Effect) (r : SessionState × List Effect) :
    SessionState × List Effect :=
  (r.1, pre ++ r.2)

/-! ### The sequence-too-low pattern

`msgSeqNumTooLowRegex = MsgSeqNum too low, expecting (\d+) but received \d+`,
compiled once at process start and applied unanchored with
`FindStringSubmatch` (leftmost match; `nil` when no match, otherwise the full
match followed by the digits of the first capture group).  Both `\d+` are
greedy and each is followed by a non-digit literal (or the end of the
pattern), so maximal-munch digit scanning at each candidate start position is
exact. -/

/-- The literal before the capture group. -/
def litExpecting : List Char := "MsgSeqNum too low, expecting ".data

/-- The literal between the two digit runs. -/
def litReceived : List Char := " but received ".data

/-- Split off the maximal leading run of decimal digits. -/
def takeDigits : List Char → List Char × List Char
  | [] => ([], [])
  | c :: cs =>
    if c.isDigit then
      let r := takeDigits cs
      (c :: r.1, r.2)
    else ([], c :: cs)

/-- Consume an expected literal from the front of the input. -/
def dropLit : List Char → List Char → Option (List Char)
  | [], s => some s
  | _ :: _, [] => none
  | p :: ps, c :: cs => if p = c then dropLit ps cs else none

/-- Try to match the pattern at the start of the input; on success return the
full matched text and the first capture group (each `\d+` must take at least
one digit, and greedily takes the maximal run). -/
def matchHere (s : List Char) : Option (List Char × List Char) :=
  match dropLit litExpecting s with
  | none => none
  | some rest1 =>
    match takeDigits rest1 with
    | ([], _) => none
    | (c1 :: ds1, rest2) =>
      match dropLit litReceived rest2 with
      | none => none
      | some rest3 =>
        match takeDigits rest3 with
        | ([], _) => none
        | (c2 :: ds2, _) =>
          some (litExpecting ++ (c1 :: ds1) ++ litReceived ++ (c2 :: ds2),
            c1 :: ds1)

/-- Scan for the leftmost position where the pattern matches. -/
def findLeftmost : List Char → Option (List Char × List Char)
  | [] => none
  | c :: rest =>
    match matchHere (c :: rest) with
    | some r => some r
    | none => findLeftmost rest

/-- `msgSeqNumTooLowRegex.FindStringSubmatch`: `none` for no match, otherwise
the two-entry list `[full match, first capture group]`. -/
def msgSeqNumTooLowFindStringSubmatch (s : String) : Option (List String) :=
  match findLeftmost s.data with
  | none => none
  | some r => some [String.mk r.1, String.mk r.2]

/-! ### strconv.Atoi -/

/-- Numeric value of a digit string, most significant digit first. -/
def natOfDigits (ds : List Char) : Nat :=
  ds.foldl (fun acc d => acc * 10 + (d.toNat - 48)) 0

/-- The largest value representable in the machine integer type (64-bit). -/
def maxInt64 : Nat := 2 ^ 63 - 1

/-- Sign and digit part of a numeric string: a leading `-` or `+` is split off,
anything else leaves the whole string as the digit part. -/
def splitSign (l : List Char) : Bool × List Char :=
  if l.head? = some '-' then (true, l.tail)
  else if l.head? = some '+' then (false, l.tail)
  else (false, l)

/-- `strconv.Atoi`: optional sign, then decimal digits; fails on an empty or
non-numeric string and when the value overflows the machine integer range. -/
def atoi (s : String) : Except FixError Int :=
  if (splitSign s.data).2 = [] then Except.error (FixError.parseError s)
  else if (splitSign s.data).2.all Char.isDigit then
    if (splitSign s.data).1 = true then
      if natOfDigits (splitSign s.data).2 ≤ 2 ^ 63 then
        Except.ok (-(natOfDigits (splitSign s.data).2 : Int))
      else Except.error (FixError.parseError s)
    else
      if natOfDigits (splitSign s.data).2 ≤ maxInt64 then
        Except.ok (natOfDigits (splitSign s.data).2 : Int)
      else Except.error (FixError.parseError s)
  else Except.error (FixError.parseError s)

/-! ### The logon-pending state handlers -/

/-- `shutdownWithReason`: log the reason, build and attempt to send a logout in
reply to the triggering message (a send failure is logged, not fatal),
optionally increment the next target sequence number (a store failure is
logged, not fatal), and yield the latent state. -/
def shutdownWithReason (sess : Session) (_msg : Message)
    (incrNextTargetMsgSeqNum : Bool) (reason : String) :
    SessionState × List Effect :=
  let sendEffs : List Effect :=
    match sess.sendErr with
    | some e => [Effect.sendLogout reason, Effect.logError e]
    | none => [Effect.sendLogout reason]
  let incrEffs : List Effect :=
    if incrNextTargetMsgSeqNum then
      match sess.incrErr with
      | some e => [Effect.incrNextTargetMsgSeqNum, Effect.logError e]
      | none => [Effect.incrNextTargetMsgSeqNum]
    else []
  (SessionState.latentState, Effect.onEvent reason :: (sendEffs ++ incrEffs))

/-- The Logout branch of `logonState.FixMsgIn` (source lines 47–79): log the
invalid-state event, extract the reason text, test it against the
sequence-too-low pattern, and when the force flag is set parse the expected
sequence number and force-set the sender counter. -/
def fixMsgInLogout (sess : Session) (msg : Message) :
    SessionState × List Effect :=
  let e0 := Effect.onEvent
    ("Invalid Session State: Received Logout " ++ msg.display ++
      " while waiting for Logon")
  match msg.Body.GetString tagText with
  | Except.error e => withEffects [e0] (handleStateError e)
  | Except.ok reason =>
    match msgSeqNumTooLowFindStringSubmatch reason with
    | none => (SessionState.latentState, [e0])
    | some res =>
      if sess.LogonForceSenderMsgSeqNum then
        match atoi (res.getD 1 "") with
        | Except.error e => withEffects [e0] (handleStateError e)
        | Except.ok expectedMsgSeqNum =>
          let e1 := Effect.onEvent
            ("Forcing next sender message sequence number to " ++
              toString expectedMsgSeqNum)
          let pre := [e0, e1, Effect.forceNextSenderMsgSeqNum expectedMsgSeqNum]
          match sess.forceErr with
          | some e => withEffects pre (handleStateError e)
          | none => (SessionState.latentState, pre)
      else (SessionState.latentState, [e0])

/-- The Logon branch of `logonState.FixMsgIn` (source lines 86–110): switch on
the logon-validation classification; on success notify the application and
enter the in-session state. -/
def fixMsgInLogon (sess : Session) (msg : Message) :
    SessionState × List Effect :=
  match sess.handleLogonResult with
  | some (LogonError.rejectLogon text) => shutdownWithReason sess msg true text
  | some (LogonError.targetTooLow text) => shutdownWithReason sess msg false text
  | some (LogonError.targetTooHigh _) =>
    match sess.doTargetTooHighResult with
    | Except.error tooHighErr => shutdownWithReason sess msg false tooHighErr
    | Except.ok nextState => (nextState, [])
  | some (LogonError.other e) => handleStateError e
  | none =>
    (SessionState.inSession, [Effect.inSessionNotify sess.sessionID])

/-- Dispatch of `logonState.FixMsgIn` on the extracted message type:
Logout first, then the non-Logon rejection, then the Logon branch, exactly as
the source orders its comparisons. -/
def fixMsgInTyped (sess : Session) (msg : Message) (msgType : String) :
    SessionState × List Effect :=
  if msgType = msgTypeLogout then fixMsgInLogout sess msg
  else if msgType ≠ msgTypeLogon then
    (SessionState.latentState,
      [Effect.onEvent
        ("Invalid Session State: Received Msg " ++ msg.display ++
          " while waiting for Logon")])
  else fixMsgInLogon sess msg

namespace logonState

/-- `logonState.FixMsgIn`: extract the message type, dispatch on
Logout / non-Logon / Logon exactly as the source does. -/
def FixMsgIn (sess : Session) (msg : Message) : SessionState × List Effect :=
  match msg.Header.GetBytes tagMsgType with
  | Except.error e => handleStateError e
  | Except.ok msgType => fixMsgInTyped sess msg msgType

/-- The named timer events delivered to a session state. -/
inductive Event where
  | peerTimeout
  | needHeartbeat
  | logonTimeout
  | logoutTimeout
  deriving DecidableEq, Repr

/-- `logonState.Timeout`: the logon-wait-expired event logs and falls back to
latent; every other event returns the same state with no effects. -/
def Timeout (_sess : Session) (e : Event) : SessionState × List Effect :=
  match e with
  | Event.logonTimeout =>
    (SessionState.latentState,
      [Effect.onEvent "Timed out waiting for logon response"])
  | _ => (SessionState.logonState, [])

/-- `logonState.Stop`: unconditionally latent, no effects. -/
def Stop (_sess : Session) : SessionState × List Effect :=
  (SessionState.latentState, [])

end logonState

/-- Effects that mutate the sequence store. -/
def Effect.isStoreMutation : Effect → Bool
  | Effect.incrNextTargetMsgSeqNum => true
  | Effect.forceNextSenderMsgSeqNum _ => true
  | _ => false

/-- Effects that send an outbound message. -/
def Effect.isSend : Effect → Bool
  | Effect.sendLogout _ => true
  | _ => false

/-- Effects that increment the next target sequence number. -/
def Effect.isIncrTarget : Effect → Bool
  | Effect.incrNextTargetMsgSeqNum => true
  | _ => false

/-- Effects that notify the application of session readiness. -/
def Effect.isInSessionNotify : Effect → Bool
  | Effect.inSessionNotify _ => true
  | _ => false

/-! ### Support lemmas -/

theorem fixMsgIn_typed (sess : Session) (msg : Message) (mt : String)
    (hmt : msg.Header.GetBytes tagMsgType = Except.ok mt) :
    logonState.FixMsgIn sess msg = fixMsgInTyped sess msg mt := by
  unfold logonState.FixMsgIn
  rw [hmt]

theorem fixMsgIn_logout (sess : Session) (msg : Message)
    (hmt : msg.Header.GetBytes tagMsgType = Except.ok msgTypeLogout) :
    logonState.FixMsgIn sess msg = fixMsgInLogout sess msg := by
  rw [fixMsgIn_typed sess msg msgTypeLogout hmt]
  unfold fixMsgInTyped
  rw [if_pos rfl]

theorem fixMsgIn_logon (sess : Session) (msg : Message)
    (hmt : msg.Header.GetBytes tagMsgType = Except.ok msgTypeLogon) :
    logonState.FixMsgIn sess msg = fixMsgInLogon sess msg := by
  rw [fixMsgIn_typed sess msg msgTypeLogon hmt]
  unfold fixMsgInTyped
  rw [if_neg (by decide), if_neg (by simp)]

theorem fixMsgIn_err (sess : Session) (msg : Message) (e : FixError)
    (hmt : msg.Header.GetBytes tagMsgType = Except.error e) :
    logonState.FixMsgIn sess msg = handleStateError e := by
  unfold logonState.FixMsgIn
  rw [hmt]

theorem fixMsgIn_other (sess : Session) (msg : Message) (mt : String)
    (hmt : msg.Header.GetBytes tagMsgType = Except.ok mt)
    (h1 : mt ≠ msgTypeLogout) (h2 : mt ≠ msgTypeLogon) :
    logonState.FixMsgIn sess msg =
      (SessionState.latentState,
        [Effect.onEvent
          ("Invalid Session State: Received Msg " ++ msg.display ++
            " while waiting for Logon")]) := by
  rw [fixMsgIn_typed sess msg mt hmt]
  unfold fixMsgInTyped
  rw [if_neg h1, if_pos h2]

theorem takeDigits_all (l : List Char) :
    ((takeDigits l).1).all Char.isDigit = true := by
  induction l with
  | nil => rfl
  | cons c cs ih =>
    unfold takeDigits
    by_cases h : c.isDigit
    · simp [h, ih]
    · simp [h]

theorem matchHere_group {s f g : List Char}
    (h : matchHere s = some (f, g)) :
    g.all Char.isDigit = true ∧ g ≠ [] := by
  unfold matchHere at h
  split at h
  · exact absurd h (by simp)
  · rename_i rest1 heq1
    split at h
    · exact absurd h (by simp)
    · rename_i c1 ds1 rest2 heq2
      split at h
      · exact absurd h (by simp)
      · split at h
        · exact absurd h (by simp)
        · rw [Option.some.injEq, Prod.mk.injEq] at h
          obtain ⟨-, hg⟩ := h
          subst hg
          have hall := takeDigits_all rest1
          rw [heq2] at hall
          exact ⟨hall, List.cons_ne_nil c1 ds1⟩

theorem findLeftmost_group {s f g : List Char}
    (h : findLeftmost s = some (f, g)) :
    g.all Char.isDigit = true ∧ g ≠ [] := by
  induction s with
  | nil => exact absurd h (by simp [findLeftmost])
  | cons c cs ih =>
    unfold findLeftmost at h
    split at h
    · rename_i r hr
      obtain rfl : r = (f, g) := Option.some.injEq .. ▸ h
      exact matchHere_group hr
    · exact ih h

theorem isDigit_ne_sign {c : Char} (h : c.isDigit = true) :
    c ≠ '-' ∧ c ≠ '+' := by
  constructor <;> intro hc <;> subst hc <;> exact absurd h (by decide)

theorem splitSign_digits {l : List Char} (hne : l ≠ [])
    (hd : l.all Char.isDigit = true) : splitSign l = (false, l) := by
  cases l with
  | nil => exact absurd rfl hne
  | cons c cs =>
    have hc : c.isDigit = true := by
      rw [List.all_cons, Bool.and_eq_true] at hd
      exact hd.1
    obtain ⟨h1, h2⟩ := isDigit_ne_sign hc
    unfold splitSign
    rw [if_neg, if_neg]
    · simp only [List.head?, Option.some.injEq]
      exact h2
    · simp only [List.head?, Option.some.injEq]
      exact h1

theorem atoi_digits_error {s : String} (hne : s.data ≠ [])
    (hd : s.data.all Char.isDigit = true) (e : FixError)
    (h : atoi s = Except.error e) : natOfDigits s.data > maxInt64 := by
  unfold atoi at h
  rw [splitSign_digits hne hd] at h
  dsimp only at h
  rw [if_neg hne, if_pos hd, if_neg (by decide : ¬(false = true))] at h
  by_cases hle : natOfDigits s.data ≤ maxInt64
  · rw [if_pos hle] at h
    exact absurd h (by simp)
  · exact Nat.lt_of_not_le hle

/-! ### Concrete fixtures used by witnesses and counterexamples -/

/-- A session whose logon validation accepts, with no collaborator failures
and the force flag enabled. -/
def okSession : Session :=
  { LogonForceSenderMsgSeqNum := true
    handleLogonResult := none
    doTargetTooHighResult := Except.ok SessionState.resendState
    sendErr := none
    incrErr := none
    forceErr := none
    sessionID := 7 }

/-- A session whose logon validation rejects the logon outright. -/
def rejectSession : Session :=
  { okSession with handleLogonResult := some (LogonError.rejectLogon "bad logon") }

/-- A session whose logon validation reports target sequence too low. -/
def tooLowSession : Session :=
  { okSession with handleLogonResult := some (LogonError.targetTooLow "seq low") }

/-- An inbound Logon message. -/
def logonMsg : Message :=
  { Header := ⟨[(tagMsgType, msgTypeLogon)]⟩, Body := ⟨[]⟩, display := "35=A" }

/-- An inbound Logout message with the given reason text. -/
def logoutMsg (text : String) : Message :=
  { Header := ⟨[(tagMsgType, msgTypeLogout)]⟩, Body := ⟨[(tagText, text)]⟩,
    display := "35=5" }

/-- An inbound message that is neither Logon nor Logout (News, type B). -/
def newsMsg : Message :=
  { Header := ⟨[(tagMsgType, "B")]⟩, Body := ⟨[]⟩, display := "35=B" }

/-- An inbound message whose header is missing the message-type field. -/
def noTypeMsg : Message :=
  { Header := ⟨[]⟩, Body := ⟨[]⟩, display := "malformed" }

/-! ### Claims -/

/-- C1 (counterexample): a Logon rejected outright does yield latent and send
exactly one logout quoting the reason, but — contrary to the claim — the code
passes `incrNextTargetMsgSeqNum = true` to `shutdownWithReason`, so the target
sequence counter IS incremented: the claimed conjunction fails at this
input. -/
theorem rejectLogon_claim_counterexample :
    ¬ ((logonState.FixMsgIn rejectSession logonMsg).1 =
          SessionState.latentState ∧
        (logonState.FixMsgIn rejectSession logonMsg).2.filter Effect.isSend =
          [Effect.sendLogout "bad logon"] ∧
        ((logonState.FixMsgIn rejectSession logonMsg).2.filter
            Effect.isIncrTarget).length = 0) := by
  decide

/-- C1 (amended): for every inbound Logon whose validation fails with the
rejected-outright classification, `FixMsgIn` yields the latent state, sends
exactly one logout quoting the rejection reason, and increments the target
sequence counter exactly once. -/
theorem rejectLogon_shutdown (sess : Session) (msg : Message) (text : String)
    (hmt : msg.Header.GetBytes tagMsgType = Except.ok msgTypeLogon)
    (hrej : sess.handleLogonResult = some (LogonError.rejectLogon text)) :
    (logonState.FixMsgIn sess msg).1 = SessionState.latentState ∧
    (logonState.FixMsgIn sess msg).2.filter Effect.isSend =
      [Effect.sendLogout text] ∧
    ((logonState.FixMsgIn sess msg).2.filter Effect.isIncrTarget).length =
      1 := by
  rw [fixMsgIn_logon sess msg hmt]
  cases hs : sess.sendErr <;> cases hi : sess.incrErr <;>
    simp [fixMsgInLogon, hrej, shutdownWithReason, hs, hi,
      Effect.isSend, Effect.isIncrTarget]

/-- C1 witness: the amended statement evaluated on a concrete rejected
logon. -/
theorem rejectLogon_shutdown_witness :
    (logonState.FixMsgIn rejectSession logonMsg).1 =
      SessionState.latentState ∧
    (logonState.FixMsgIn rejectSession logonMsg).2.filter Effect.isSend =
      [Effect.sendLogout "bad logon"] ∧
    ((logonState.FixMsgIn rejectSession logonMsg).2.filter
        Effect.isIncrTarget).length = 1 :=
  rejectLogon_shutdown rejectSession logonMsg "bad logon" rfl rfl

/-- C2 (counterexample): a Logon whose validation reports target sequence too
low does yield latent and send exactly one logout, but — contrary to the
claim — the code passes `incrNextTargetMsgSeqNum = false` to
`shutdownWithReason`, so the target sequence counter is NOT incremented: the
claimed conjunction fails at this input. -/
theorem targetTooLow_claim_counterexample :
    ¬ ((logonState.FixMsgIn tooLowSession logonMsg).1 =
          SessionState.latentState ∧
        (logonState.FixMsgIn tooLowSession logonMsg).2.filter Effect.isSend =
          [Effect.sendLogout "seq low"] ∧
        ((logonState.FixMsgIn tooLowSession logonMsg).2.filter
            Effect.isIncrTarget).length = 1) := by
  decide

/-- C2 (amended): for every inbound Logon whose validation fails with the
target-sequence-too-low classification, `FixMsgIn` yields the latent state,
sends exactly one logout quoting the reason, and does not increment the
target sequence counter. -/
theorem targetTooLow_shutdown (sess : Session) (msg : Message) (text : String)
    (hmt : msg.Header.GetBytes tagMsgType = Except.ok msgTypeLogon)
    (hlow : sess.handleLogonResult = some (LogonError.targetTooLow text)) :
    (logonState.FixMsgIn sess msg).1 = SessionState.latentState ∧
    (logonState.FixMsgIn sess msg).2.filter Effect.isSend =
      [Effect.sendLogout text] ∧
    ((logonState.FixMsgIn sess msg).2.filter Effect.isIncrTarget).length =
      0 := by
  rw [fixMsgIn_logon sess msg hmt]
  cases hs : sess.sendErr <;>
    simp [fixMsgInLogon, hlow, shutdownWithReason, hs,
      Effect.isSend, Effect.isIncrTarget]

/-- C2 witness: the amended statement evaluated on a concrete too-low
logon. -/
theorem targetTooLow_shutdown_witness :
    (logonState.FixMsgIn tooLowSession logonMsg).1 =
      SessionState.latentState ∧
    (logonState.FixMsgIn tooLowSession logonMsg).2.filter Effect.isSend =
      [Effect.sendLogout "seq low"] ∧
    ((logonState.FixMsgIn tooLowSession logonMsg).2.filter
        Effect.isIncrTarget).length = 0 :=
  targetTooLow_shutdown tooLowSession logonMsg "seq low" rfl rfl

/-- C3: a Logout whose reason matches the sequence-too-low pattern, received
with the force flag enabled, makes `FixMsgIn` log the forcing event, invoke
the store's force-set operation with the parsed expected value, and yield the
latent state. -/
theorem logout_force_seqnum (sess : Session) (msg : Message) (reason : String)
    (res : List String) (n : Int)
    (hmt : msg.Header.GetBytes tagMsgType = Except.ok msgTypeLogout)
    (htext : msg.Body.GetString tagText = Except.ok reason)
    (hmatch : msgSeqNumTooLowFindStringSubmatch reason = some res)
    (hflag : sess.LogonForceSenderMsgSeqNum = true)
    (hn : atoi (res.getD 1 "") = Except.ok n) :
    (logonState.FixMsgIn sess msg).1 = SessionState.latentState ∧
    Effect.onEvent ("Forcing next sender message sequence number to " ++
        toString n) ∈ (logonState.FixMsgIn sess msg).2 ∧
    (logonState.FixMsgIn sess msg).2.filter Effect.isStoreMutation =
      [Effect.forceNextSenderMsgSeqNum n] := by
  rw [fixMsgIn_logout sess msg hmt]
  simp only [List.getD, List.get?_eq_getElem?] at hn
  cases hf : sess.forceErr <;>
    simp [fixMsgInLogout, htext, hmatch, hflag, hn, hf, withEffects,
      handleStateError, Effect.isStoreMutation]

/-- C3 witness: the concrete Logout reason from the spec, expecting 42,
with the force flag enabled. -/
theorem logout_force_seqnum_witness :
    (logonState.FixMsgIn okSession
        (logoutMsg "MsgSeqNum too low, expecting 42 but received 7")).1 =
      SessionState.latentState ∧
    Effect.onEvent ("Forcing next sender message sequence number to " ++
        toString (42 : Int)) ∈
      (logonState.FixMsgIn okSession
        (logoutMsg "MsgSeqNum too low, expecting 42 but received 7")).2 ∧
    (logonState.FixMsgIn okSession
        (logoutMsg "MsgSeqNum too low, expecting 42 but received 7")).2.filter
        Effect.isStoreMutation =
      [Effect.forceNextSenderMsgSeqNum 42] :=
  logout_force_seqnum okSession
    (logoutMsg "MsgSeqNum too low, expecting 42 but received 7")
    "MsgSeqNum too low, expecting 42 but received 7"
    ["MsgSeqNum too low, expecting 42 but received 7", "42"] 42
    rfl rfl rfl rfl rfl

/-- C4: a Logout received with the force flag disabled, or whose reason does
not match the sequence-too-low pattern, leads to the latent state with no
sequence-store mutation of any kind. -/
theorem logout_no_store_mutation (sess : Session) (msg : Message)
    (hmt : msg.Header.GetBytes tagMsgType = Except.ok msgTypeLogout)
    (h : sess.LogonForceSenderMsgSeqNum = false ∨
      ∀ reason, msg.Body.GetString tagText = Except.ok reason →
        msgSeqNumTooLowFindStringSubmatch reason = none) :
    (logonState.FixMsgIn sess msg).1 = SessionState.latentState ∧
    (logonState.FixMsgIn sess msg).2.filter Effect.isStoreMutation = [] := by
  rw [fixMsgIn_logout sess msg hmt]
  cases hr : msg.Body.GetString tagText with
  | error e =>
    simp [fixMsgInLogout, hr, withEffects, handleStateError,
      Effect.isStoreMutation]
  | ok reason =>
    cases hm : msgSeqNumTooLowFindStringSubmatch reason with
    | none => simp [fixMsgInLogout, hr, hm, Effect.isStoreMutation]
    | some res =>
      rcases h with hflag | hnone
      · simp [fixMsgInLogout, hr, hm, hflag, Effect.isStoreMutation]
      · exact absurd (hnone reason hr) (by simp [hm])

/-- C4 witness: the matching Logout reason with the force flag disabled. -/
theorem logout_no_store_mutation_witness :
    (logonState.FixMsgIn { okSession with LogonForceSenderMsgSeqNum := false }
        (logoutMsg "MsgSeqNum too low, expecting 42 but received 7")).1 =
      SessionState.latentState ∧
    (logonState.FixMsgIn { okSession with LogonForceSenderMsgSeqNum := false }
        (logoutMsg "MsgSeqNum too low, expecting 42 but received 7")).2.filter
      Effect.isStoreMutation = [] :=
  logout_no_store_mutation
    { okSession with LogonForceSenderMsgSeqNum := false }
    (logoutMsg "MsgSeqNum too low, expecting 42 but received 7")
    rfl (Or.inl rfl)

/-- C5: an inbound message that is neither Logon nor Logout makes `FixMsgIn`
log the invalid-state event and yield the latent state, sending nothing. -/
theorem unexpected_msg_latent (sess : Session) (msg : Message) (mt : String)
    (hmt : msg.Header.GetBytes tagMsgType = Except.ok mt)
    (hlogon : mt ≠ msgTypeLogon) (hlogout : mt ≠ msgTypeLogout) :
    (logonState.FixMsgIn sess msg).1 = SessionState.latentState ∧
    (logonState.FixMsgIn sess msg).2 =
      [Effect.onEvent ("Invalid Session State: Received Msg " ++
        msg.display ++ " while waiting for Logon")] ∧
    (logonState.FixMsgIn sess msg).2.filter Effect.isSend = [] := by
  rw [fixMsgIn_other sess msg mt hmt hlogout hlogon]
  simp [Effect.isSend]

/-- C5 witness: a News (type B) message in the logon-pending state. -/
theorem unexpected_msg_latent_witness :
    (logonState.FixMsgIn okSession newsMsg).1 = SessionState.latentState ∧
    (logonState.FixMsgIn okSession newsMsg).2 =
      [Effect.onEvent ("Invalid Session State: Received Msg " ++
        newsMsg.display ++ " while waiting for Logon")] ∧
    (logonState.FixMsgIn okSession newsMsg).2.filter Effect.isSend = [] :=
  unexpected_msg_latent okSession newsMsg "B" rfl (by decide) (by decide)

/-- C6: an inbound Logon accepted by the logon-validation procedure makes
`FixMsgIn` perform exactly one in-session application notification and yield
the in-session state. -/
theorem accepted_logon_inSession (sess : Session) (msg : Message)
    (hmt : msg.Header.GetBytes tagMsgType = Except.ok msgTypeLogon)
    (hacc : sess.handleLogonResult = none) :
    logonState.FixMsgIn sess msg =
      (SessionState.inSession, [Effect.inSessionNotify sess.sessionID]) ∧
    ((logonState.FixMsgIn sess msg).2.filter
        Effect.isInSessionNotify).length = 1 := by
  rw [fixMsgIn_logon sess msg hmt]
  simp [fixMsgInLogon, hacc, Effect.isInSessionNotify]

/-- C6 witness: a concrete accepted Logon. -/
theorem accepted_logon_inSession_witness :
    logonState.FixMsgIn okSession logonMsg =
      (SessionState.inSession, [Effect.inSessionNotify okSession.sessionID]) ∧
    ((logonState.FixMsgIn okSession logonMsg).2.filter
        Effect.isInSessionNotify).length = 1 :=
  accepted_logon_inSession okSession logonMsg rfl rfl

/-- C7: a failed extraction of the MsgType header field, or of the Text body
field of a Logout, is routed through the shared state-error handler:
`FixMsgIn` returns the latent state with the error logged, never propagating
the error (the handler is a total function into states by construction). -/
theorem field_error_latent (sess : Session) (msg : Message) :
    (∀ e, msg.Header.GetBytes tagMsgType = Except.error e →
      logonState.FixMsgIn sess msg =
        (SessionState.latentState, [Effect.logError e])) ∧
    (∀ e, msg.Header.GetBytes tagMsgType = Except.ok msgTypeLogout →
      msg.Body.GetString tagText = Except.error e →
      logonState.FixMsgIn sess msg =
        (SessionState.latentState,
          [Effect.onEvent ("Invalid Session State: Received Logout " ++
            msg.display ++ " while waiting for Logon"),
          Effect.logError e])) := by
  constructor
  · intro e he
    rw [fixMsgIn_err sess msg e he]
    rfl
  · intro e hmt hb
    rw [fixMsgIn_logout sess msg hmt]
    simp [fixMsgInLogout, hb, withEffects, handleStateError]

/-- C7 witness: a message with no MsgType field yields latent with the
missing-field error logged. -/
theorem field_error_latent_witness :
    logonState.FixMsgIn okSession noTypeMsg =
      (SessionState.latentState,
        [Effect.logError (FixError.fieldMissing tagMsgType)]) :=
  (field_error_latent okSession noTypeMsg).1 (FixError.fieldMissing tagMsgType)
    rfl

/-- C8: the logon-wait-expired timer event makes `Timeout` log the timeout and
yield the latent state; every other event returns the logon state unchanged
with no effects. -/
theorem logon_timeout_behaviour (sess : Session) (e : logonState.Event) :
    (e = logonState.Event.logonTimeout →
      logonState.Timeout sess e =
        (SessionState.latentState,
          [Effect.onEvent "Timed out waiting for logon response"])) ∧
    (e ≠ logonState.Event.logonTimeout →
      logonState.Timeout sess e = (SessionState.logonState, [])) := by
  constructor
  · intro h
    subst h
    rfl
  · intro h
    cases e <;> first | rfl | exact absurd rfl h

/-- C8 witness: the logon-timeout event and a peer-timeout event, evaluated
concretely. -/
theorem logon_timeout_behaviour_witness :
    logonState.Timeout okSession logonState.Event.logonTimeout =
      (SessionState.latentState,
        [Effect.onEvent "Timed out waiting for logon response"]) ∧
    logonState.Timeout okSession logonState.Event.peerTimeout =
      (SessionState.logonState, []) :=
  ⟨(logon_timeout_behaviour okSession logonState.Event.logonTimeout).1 rfl,
    (logon_timeout_behaviour okSession logonState.Event.peerTimeout).2
      (by decide)⟩

/-- C9: `Stop` unconditionally yields the latent state with an empty effect
trace — no logging, no outbound message, no store mutation. -/
theorem logon_stop_latent (sess : Session) :
    logonState.Stop sess = (SessionState.latentState, []) := rfl

/-- C10: whenever the sequence-too-low pattern finds a submatch, the result
has exactly two entries whose entry 1 is a nonempty string of decimal digits,
so indexing it is safe; its integer parse can fail only when the digit string
exceeds the 64-bit machine integer range, and under that failure `FixMsgIn`
still yields the state-error outcome (latent, error logged) rather than
panicking. -/
theorem regex_submatch_safe (reason : String) (res : List String)
    (h : msgSeqNumTooLowFindStringSubmatch reason = some res) :
    res.length = 2 ∧
    (res.getD 1 "").data.all Char.isDigit = true ∧
    res.getD 1 "" ≠ "" ∧
    (∀ e, atoi (res.getD 1 "") = Except.error e →
      natOfDigits (res.getD 1 "").data > maxInt64) ∧
    (∀ (sess : Session) (msg : Message) (e : FixError),
      msg.Header.GetBytes tagMsgType = Except.ok msgTypeLogout →
      msg.Body.GetString tagText = Except.ok reason →
      sess.LogonForceSenderMsgSeqNum = true →
      atoi (res.getD 1 "") = Except.error e →
      (logonState.FixMsgIn sess msg).1 = SessionState.latentState ∧
      Effect.logError e ∈ (logonState.FixMsgIn sess msg).2) := by
  have hfix := h
  unfold msgSeqNumTooLowFindStringSubmatch at h
  split at h
  · exact absurd h (by simp)
  · rename_i p heq
    obtain ⟨f, g⟩ := p
    obtain ⟨hall, hne⟩ := findLeftmost_group heq
    obtain rfl : [String.mk f, String.mk g] = res := Option.some.injEq .. ▸ h
    refine ⟨rfl, hall, ?_, ?_, ?_⟩
    · intro hcon
      exact hne (congrArg String.data hcon)
    · intro e he
      exact atoi_digits_error hne hall e he
    · intro sess msg e hmt hb hflag hatoi
      rw [fixMsgIn_logout sess msg hmt]
      simp only [List.getD, List.get?_eq_getElem?, List.getElem?_cons_succ,
        List.getElem?_cons_zero, Option.getD_some] at hatoi
      simp [fixMsgInLogout, hb, hfix, hflag, hatoi, withEffects,
        handleStateError]

/-- C10 witness: a reason whose expected value has twenty digits overflows the
machine integer range; the parse fails and the session still lands in the
latent state with the error logged. -/
theorem regex_submatch_safe_witness :
    msgSeqNumTooLowFindStringSubmatch
        "MsgSeqNum too low, expecting 99999999999999999999 but received 7" =
      some ["MsgSeqNum too low, expecting 99999999999999999999 but received 7",
        "99999999999999999999"] ∧
    (logonState.FixMsgIn okSession
        (logoutMsg
          "MsgSeqNum too low, expecting 99999999999999999999 but received 7")).1 =
      SessionState.latentState ∧
    Effect.logError (FixError.parseError "99999999999999999999") ∈
      (logonState.FixMsgIn okSession
        (logoutMsg
          "MsgSeqNum too low, expecting 99999999999999999999 but received 7")).2 :=
  ⟨rfl,
    (regex_submatch_safe
        "MsgSeqNum too low, expecting 99999999999999999999 but received 7"
        ["MsgSeqNum too low, expecting 99999999999999999999 but received 7",
          "99999999999999999999"] rfl).2.2.2.2
      okSession
      (logoutMsg
        "MsgSeqNum too low, expecting 99999999999999999999 but received 7")
      (FixError.parseError "99999999999999999999") rfl rfl rfl rfl⟩

end QuickFix
